import Mathlib

/-!
Verification of the WHIP/WHEP WebRTC session orchestrator
(libavformat/webrtc.c, libavformat/webrtc_demux.c, and the WHIP muxer).

The development shallowly embeds the orchestrator code: the mirrored
connection state, the track registry, the packet write path of the WHIP
muxer, the connect-wait loop, the signaling exchange (create / delete
resource), the transport-binding receive callback, and the teardown
sequence.  External collaborators (the libdatachannel engine, the HTTP
client, the RTP codec layer) are passed in as explicit parameters or
modelled from their documented contracts; each such model says so in its
doc comment.
-/

namespace WebRTCSpec

/-- Connection lifecycle states mirrored from the engine (`rtcState`). -/
inductive RtcState
  | rtcNew
  | connecting
  | connected
  | disconnected
  | failed
  | closed
deriving DecidableEq

/-- Error kinds returned by the orchestrator.  `einval` is AVERROR(EINVAL),
`enomem` is AVERROR(ENOMEM), `eagain` is AVERROR(EAGAIN), `bufTooSmall` is
AVERROR_BUFFER_TOO_SMALL, `endOfFile` is AVERROR_EOF, and `engineFailure`
is AVERROR_EXTERNAL. -/
inductive AVErr
  | einval
  | enomem
  | eagain
  | bufTooSmall
  | endOfFile
  | engineFailure
deriving DecidableEq

/-- One media track (`WebRTCTrack` of webrtc.h): the engine track handle
(`track_id`, non-zero iff the track was added to the peer connection), the
opened RTP codec context (`rtp_ctx`, an opaque handle, `none` when the C
pointer is NULL) and the transport binding (`rtp_url_context`). -/
structure WebRTCTrack where
  track_id : Int
  rtp_ctx : Option Nat
  rtp_url_context : Option Nat
deriving DecidableEq

instance : Inhabited WebRTCTrack := ⟨⟨0, none, none⟩⟩

/-- Session state (`WebRTCContext` of webrtc.h).  `tracks = none` models a
NULL `tracks` pointer; `nb_tracks` is the separate track counter the C code
keeps next to the pointer. -/
structure WebRTCContext where
  peer_connection : Int
  state : RtcState
  tracks : Option (List WebRTCTrack)
  nb_tracks : Nat
  resource_location : Option String
  bearer_token : Option String
  connection_timeout : Int
  rw_timeout : Int
deriving DecidableEq

/-- The packet of the caller; only the fields the orchestrator touches are
modelled (`stream_index`, plus an opaque payload standing for the rest). -/
structure AVPacket where
  stream_index : Nat
  payload : Nat
deriving DecidableEq

/-- Media kinds (`AVMediaType`); `other` stands for every non-audio,
non-video kind (data, subtitle, attachment). -/
inductive AVMediaType
  | video
  | audio
  | other
deriving DecidableEq

/-- Result of one `whip_write_packet` call.  `accessed_track` records which
index of the track array the function read (line 195 of the muxer);
`result` is `ok rtpctx` when the packet was handed to `av_write_frame` on
that RTP writer and `error` when the call failed before forwarding;
`pkt_after` is the packet of the caller after the call (the function mutates
`pkt->stream_index`). -/
structure WhipWriteResult where
  accessed_track : Nat
  result : Except AVErr (Option Nat)
  pkt_after : AVPacket

/-- Function `whip_write_packet` (WHIP muxer, lines 192-204): it first reads
`ctx->webrtc_ctx.tracks[pkt->stream_index].rtp_ctx`, then sets
`pkt->stream_index = 0`, then rejects with AVERROR(EINVAL) unless the
mirrored state is RTC_CONNECTED, and otherwise forwards the (mutated)
packet to the RTP writer it selected. -/
def whip_write_packet (ctx : WebRTCContext) (pkt : AVPacket) : WhipWriteResult :=
  let rtpctx := ((ctx.tracks.getD []).getD pkt.stream_index default).rtp_ctx
  let pkt2 : AVPacket := { pkt with stream_index := 0 }
  if ctx.state ≠ RtcState.connected then
    { accessed_track := pkt.stream_index, result := Except.error AVErr.einval, pkt_after := pkt2 }
  else
    { accessed_track := pkt.stream_index, result := Except.ok rtpctx, pkt_after := pkt2 }

/-! ### Connect wait (whip_write_header lines 173-184, whep_read_header
lines 118-129; the two loops are textually identical).

The loop observes the mirrored state and the wall clock once per
iteration: iteration `n` sees `stateAt n` and `timeAt n`.  The deadline is
computed once, before the loop, as `t0 + connection_timeout`.  `fuel`
bounds how many iterations are modelled; `none` means the loop was still
running after `fuel` iterations. -/

/-- The loop exit condition at iteration `m`: the while-condition is met
(Connected) or the failure guard fires (Failed, Closed, or the clock is
past the deadline). -/
def wait_exit (stateAt : Nat → RtcState) (timeAt : Nat → Int) (deadline : Int)
    (m : Nat) : Prop :=
  stateAt m = RtcState.connected ∨ stateAt m = RtcState.failed ∨
    stateAt m = RtcState.closed ∨ deadline < timeAt m

instance wait_exit_dec (stateAt : Nat → RtcState) (timeAt : Nat → Int)
    (deadline : Int) (m : Nat) : Decidable (wait_exit stateAt timeAt deadline m) := by
  unfold wait_exit
  infer_instance

/-- One run of the connect-wait loop starting at iteration `n`:
`while (state != RTC_CONNECTED) { if (state == RTC_FAILED || state ==
RTC_CLOSED || av_gettime_relative() > timeout) fail; av_usleep(1000); }`. -/
def connect_wait_from (stateAt : Nat → RtcState) (timeAt : Nat → Int) (deadline : Int) :
    Nat → Nat → Option (Except AVErr Unit)
  | 0, _ => none
  | fuel + 1, n =>
    if stateAt n = RtcState.connected then some (Except.ok ())
    else if stateAt n = RtcState.failed ∨ stateAt n = RtcState.closed ∨
        deadline < timeAt n then
      some (Except.error AVErr.engineFailure)
    else connect_wait_from stateAt timeAt deadline fuel (n + 1)

/-- The whole wait: `timeout = av_gettime_relative() + connection_timeout`
(`t0` is the gettime call before the loop), then the loop from iteration 0. -/
def connect_wait (stateAt : Nat → RtcState) (timeAt : Nat → Int)
    (t0 connTimeout : Int) (fuel : Nat) : Option (Except AVErr Unit) :=
  connect_wait_from stateAt timeAt (t0 + connTimeout) fuel 0

/-! ### Signaling exchange and teardown (webrtc.c) -/

/-- Constant `SDP_MAX_SIZE` (rtsp.h): the fixed size of the stack buffers holding
the offer and the answer in `ff_webrtc_create_resource`. -/
def SDP_MAX_SIZE : Nat := 16384

/-- Modelled from the spec: `ffurl_read_complete` (the HTTP signaling
transport operation "read the complete response into a caller buffer", avio code
outside src/).  Per the avio contract it fills the supplied buffer with up
to `size` bytes of the body and returns the number of bytes placed there;
its return carries no overflow indication, so a body longer than the
buffer yields the first `size` bytes and a non-negative count. -/
def ffurl_read_complete (body : List Nat) (size : Nat) : Int × List Nat :=
  (Int.ofNat (min body.length size), body.take size)

/-- Outcomes of the external steps of `ff_webrtc_create_resource`:
the engine set/get local description, the HTTP POST round trip, the
engine acceptance of the remote description, and the `Location`
header captured from the reply. -/
structure SignalHttpEnv where
  set_local_ok : Bool
  local_desc : Option String
  connect_ok : Bool
  response_body : List Nat
  set_remote_ok : List Nat → Bool
  new_location : Option String
  close_ok : Bool

/-- Function `ff_webrtc_create_resource` (webrtc.c lines 126-211): set the local
description, serialize the offer, POST it, read the reply with
`ffurl_read_complete` into the fixed `SDP_MAX_SIZE` buffer (failing only
when that call returns a negative count), apply the buffer contents as the
remote description, and store the location header of the reply as
`resource_location`.  The middle component of the result is the
description actually applied as the remote description (`none` when
`rtcSetRemoteDescription` was never reached or rejected it). -/
def ff_webrtc_create_resource (env : SignalHttpEnv) (ctx : WebRTCContext) :
    Except AVErr Unit × Option (List Nat) × WebRTCContext :=
  if ¬ env.set_local_ok then (Except.error AVErr.engineFailure, none, ctx)
  else
    match env.local_desc with
    | none => (Except.error AVErr.engineFailure, none, ctx)
    | some _offer =>
      if ¬ env.connect_ok then (Except.error AVErr.engineFailure, none, ctx)
      else
        let rd := ffurl_read_complete env.response_body SDP_MAX_SIZE
        if rd.1 < 0 then (Except.error AVErr.engineFailure, none, ctx)
        else if ¬ env.set_remote_ok rd.2 then
          (Except.error AVErr.engineFailure, none, ctx)
        else
          let ctx2 := { ctx with resource_location := env.new_location }
          if ¬ env.close_ok then (Except.error AVErr.engineFailure, some rd.2, ctx2)
          else (Except.ok (), some rd.2, ctx2)

/-- Observable teardown / signaling side effects, in the order they are
performed. -/
inductive Ev
  | httpDelete (loc : String) (bearer : Option String)
  | freeRtpCtx (i : Nat)
  | freeUrlCtx (i : Nat)
  | deleteTrack (i : Nat)
  | freeTracksArray
  | deletePeerConnection
  | freeResourceLocation
deriving DecidableEq

/-- Function `ff_webrtc_close_resource` (webrtc.c lines 213-260): a no-op returning
0 when `resource_location` is NULL; otherwise one HTTP DELETE attempt to
that location (its outcome `httpOutcome` covers ffurl_alloc / ffurl_connect
/ ffurl_closep), after which `resource_location` is freed regardless of the
outcome (the success path falls through into the `fail:` label). -/
def ff_webrtc_close_resource (httpOutcome : Except AVErr Unit) (ctx : WebRTCContext) :
    Except AVErr Unit × List Ev × WebRTCContext :=
  match ctx.resource_location with
  | none => (Except.ok (), [], ctx)
  | some loc =>
      (httpOutcome, [Ev.httpDelete loc ctx.bearer_token],
        { ctx with resource_location := none })

/-- Per-track release performed by the loop body of `ff_webrtc_deinit`, in source order:
`avformat_free_context(rtp_ctx)` if set, `av_freep(&rtp_url_context)` if
set, `rtcDeleteTrack(track_id)` if non-zero. -/
def track_deinit_events (i : Nat) (t : WebRTCTrack) : List Ev :=
  (if t.rtp_ctx.isSome then [Ev.freeRtpCtx i] else []) ++
    (if t.rtp_url_context.isSome then [Ev.freeUrlCtx i] else []) ++
    (if t.track_id ≠ 0 then [Ev.deleteTrack i] else [])

/-- The `for (i = 0; i < nb_tracks; ++i)` loop of `ff_webrtc_deinit`,
starting at index `k`. -/
def deinit_tracks : Nat → List WebRTCTrack → List Ev
  | _, [] => []
  | k, t :: ts => track_deinit_events k t ++ deinit_tracks (k + 1) ts

/-- Function `ff_webrtc_deinit` (webrtc.c lines 391-410): when the `tracks` pointer
is non-NULL, release the first `nb_tracks` tracks then free the array;
then delete the peer connection if present and zero the handle; then free
`resource_location` if present.  Returns the event trace and the session
state after the call. -/
def ff_webrtc_deinit (ctx : WebRTCContext) : List Ev × WebRTCContext :=
  let trackEvs :=
    match ctx.tracks with
    | none => []
    | some ts => deinit_tracks 0 (ts.take ctx.nb_tracks) ++ [Ev.freeTracksArray]
  let pcEvs := if ctx.peer_connection ≠ 0 then [Ev.deletePeerConnection] else []
  let rlEvs := if ctx.resource_location.isSome then [Ev.freeResourceLocation] else []
  (trackEvs ++ pcEvs ++ rlEvs,
    { ctx with tracks := none, peer_connection := 0, resource_location := none })

/-- Function `whep_read_close` (webrtc_demux.c lines 198-212): delete the remote
resource first (logging its failure), then run the local engine teardown,
and return the resource-deletion result. -/
def whep_read_close (httpOutcome : Except AVErr Unit) (ctx : WebRTCContext) :
    Except AVErr Unit × List Ev × WebRTCContext :=
  let r1 := ff_webrtc_close_resource httpOutcome ctx
  let r2 := ff_webrtc_deinit r1.2.2
  (r1.1, r1.2.1 ++ r2.1, r2.2)

/-- Function `whip_write_trailer` (WHIP muxer lines 206-210): returns
`ff_webrtc_close_resource` directly. -/
def whip_write_trailer (httpOutcome : Except AVErr Unit) (ctx : WebRTCContext) :
    Except AVErr Unit × List Ev × WebRTCContext :=
  ff_webrtc_close_resource httpOutcome ctx

/-- Modelled from the spec: closing the ingest session ("Close: Signaling
Exchange delete-resource, then release all tracks and the peer
connection").  The generic muxer machinery that sequences
`whip_write_trailer` before `whip_deinit` (av_write_trailer /
avformat_free_context) is outside src/; `whip_deinit` itself is
`ff_webrtc_deinit` on the session. -/
def whip_close (httpOutcome : Except AVErr Unit) (ctx : WebRTCContext) :
    Except AVErr Unit × List Ev × WebRTCContext :=
  let r1 := whip_write_trailer httpOutcome ctx
  let r2 := ff_webrtc_deinit r1.2.2
  (r1.1, r1.2.1 ++ r2.1, r2.2)

/-! ### Track configuration (whep_read_header, whip_init) -/

/-- Engine codec identifiers (`rtcCodec`). -/
inductive RtcCodec
  | h264
  | h265
  | av1
  | vp8
  | vp9
  | opus
  | aac
  | pcma
  | pcmu
deriving DecidableEq

/-- Track directions (`rtcDirection`); only the two used here. -/
inductive RtcDirection
  | sendonly
  | recvonly
deriving DecidableEq

/-- Structure `rtcTrackInit`: the per-track configuration handed to `rtcAddTrackEx`. -/
structure RtcTrackInit where
  direction : RtcDirection
  codec : RtcCodec
  payloadType : Nat
  ssrc : Nat
  mid : String
  msid : String
  trackId : String
  profile : String
deriving DecidableEq

/-- The video track configuration of `whep_read_header` (lines 73-90):
receive-only H.264, payload type 96, mid "0", fixed profile string. -/
def whep_video_track_init (msid : String) (ssrc : Nat) : RtcTrackInit :=
  { direction := RtcDirection.recvonly
    codec := RtcCodec.h264
    payloadType := 96
    ssrc := ssrc
    mid := "0"
    msid := msid
    trackId := msid ++ "-video"
    profile := "profile-level-id=42e01f;packetization-mode=1;level-asymmetry-allowed=1" }

/-- The audio track configuration of `whep_read_header` (lines 92-109):
receive-only Opus, payload type 97, mid "1", fixed profile string. -/
def whep_audio_track_init (msid : String) (ssrc : Nat) : RtcTrackInit :=
  { direction := RtcDirection.recvonly
    codec := RtcCodec.opus
    payloadType := 97
    ssrc := ssrc
    mid := "1"
    msid := msid
    trackId := msid ++ "-audio"
    profile := "minptime=10;maxaveragebitrate=96000;stereo=1;sprop-stereo=1;useinbandfec=1" }

/-- Media kind of an engine codec. -/
def rtc_codec_kind : RtcCodec → AVMediaType
  | RtcCodec.h264 => AVMediaType.video
  | RtcCodec.h265 => AVMediaType.video
  | RtcCodec.av1 => AVMediaType.video
  | RtcCodec.vp8 => AVMediaType.video
  | RtcCodec.vp9 => AVMediaType.video
  | _ => AVMediaType.audio

/-- Modelled from the spec: "for each of the two tracks, fetch its
negotiated per-track description text from the engine, parse it as a local
session description ... and expose the reader stream parameters as the
two public session streams" — the engine per-track description
describes the media line of that track, so the public stream exposed for a
track has the media type of the codec of that track. -/
def whep_track_stream_kind (t : RtcTrackInit) : AVMediaType :=
  rtc_codec_kind t.codec

/-- Outcomes of the external steps of `whep_read_header`: the generated
media-stream id, the two random SSRCs, the engine handles returned by
`rtcAddTrackEx` (the code treats 0 as failure), the remote answer body,
and the success of the create-resource exchange, the connect wait, and
the per-track description/SDP-open steps. -/
structure WhepEnv where
  msid : String
  ssrc_video : Nat
  ssrc_audio : Nat
  add_track_video : Int
  add_track_audio : Int
  answer_body : List Nat
  create_res_ok : Bool
  wait_ok : Bool
  open_tracks_ok : Bool

/-- Function `whep_read_header` (webrtc_demux.c lines 37-196), abstracted over the
engine/HTTP outcomes in `env`: add the fixed video track then the fixed
audio track (failing on a 0 handle), run the create-resource exchange,
wait for the connection, then open the two per-track readers and expose
one public stream per track, video first.  Returns the track
configurations passed to `rtcAddTrackEx` and the media kinds of the
exposed public streams, in order. -/
def whep_read_header (env : WhepEnv) :
    Except AVErr (List RtcTrackInit × List AVMediaType) :=
  let vinit := whep_video_track_init env.msid env.ssrc_video
  let ainit := whep_audio_track_init env.msid env.ssrc_audio
  if env.add_track_video = 0 then Except.error AVErr.engineFailure
  else if env.add_track_audio = 0 then Except.error AVErr.engineFailure
  else if ¬ env.create_res_ok then Except.error AVErr.engineFailure
  else if ¬ env.wait_ok then Except.error AVErr.engineFailure
  else if ¬ env.open_tracks_ok then Except.error AVErr.engineFailure
  else Except.ok ([vinit, ainit],
    [whep_track_stream_kind vinit, whep_track_stream_kind ainit])

/-- Caller codec identifiers (`AVCodecID`); `mp2` and `unsupportedCodec`
stand for ids missing from the WebRTC conversion table. -/
inductive AVCodecID
  | h264
  | hevc
  | av1
  | vp8
  | vp9
  | opus
  | aac
  | pcm_alaw
  | pcm_mulaw
  | mp2
  | unsupportedCodec
deriving DecidableEq

/-- Function `ff_webrtc_convert_codec` (webrtc.c lines 352-389): the codec
conversion table; unknown ids yield AVERROR(EINVAL). -/
def ff_webrtc_convert_codec : AVCodecID → Except AVErr RtcCodec
  | AVCodecID.h264 => Except.ok RtcCodec.h264
  | AVCodecID.hevc => Except.ok RtcCodec.h265
  | AVCodecID.av1 => Except.ok RtcCodec.av1
  | AVCodecID.vp8 => Except.ok RtcCodec.vp8
  | AVCodecID.vp9 => Except.ok RtcCodec.vp9
  | AVCodecID.opus => Except.ok RtcCodec.opus
  | AVCodecID.aac => Except.ok RtcCodec.aac
  | AVCodecID.pcm_alaw => Except.ok RtcCodec.pcma
  | AVCodecID.pcm_mulaw => Except.ok RtcCodec.pcmu
  | _ => Except.error AVErr.einval

/-- Channel layouts; only equality with the fixed stereo layout matters
(`av_channel_layout_compare(&ch_layout, &AV_CHANNEL_LAYOUT_STEREO)`). -/
inductive AVChLayout
  | stereo
  | mono
  | otherLayout
deriving DecidableEq

/-- The caller stream parameters `whip_init` inspects. -/
structure AVCodecParameters where
  codec_type : AVMediaType
  codec_id : AVCodecID
  sample_rate : Int
  ch_layout : AVChLayout
deriving DecidableEq

/-- Outcomes of the per-stream external steps of `whip_init`:
`ff_webrtc_init_urlcontext` (allocation), `ff_rtp_chain_mux_open`,
`ff_sdp_write_media`, and the engine handle returned by `rtcAddTrackEx`
(the muxer treats a negative handle as failure). -/
structure WhipStreamEnv where
  url_ctx_ok : Nat → Bool
  rtp_open_ok : Nat → Bool
  sdp_ok : Nat → Bool
  add_track_id : Nat → Int

/-- All external per-stream steps succeed. -/
def whip_env_ok (env : WhipStreamEnv) : Prop :=
  ∀ i, env.url_ctx_ok i = true ∧ env.rtp_open_ok i = true ∧
    env.sdp_ok i = true ∧ 0 ≤ env.add_track_id i

/-- The track-setup tail of the loop body of `whip_init` (lines 106-152), run
after the stream passed validation: open the URL context and the RTP
writer, convert the codec id (AVERROR(EINVAL) on unsupported ids), render
the SDP line for the fmtp string, add the track (AVERROR(EINVAL) on a
negative handle). -/
def whip_setup_track (env : WhipStreamEnv) (i : Nat) (p : AVCodecParameters) :
    Except AVErr Unit :=
  if ¬ env.url_ctx_ok i then Except.error AVErr.enomem
  else if ¬ env.rtp_open_ok i then Except.error AVErr.engineFailure
  else
    match ff_webrtc_convert_codec p.codec_id with
    | Except.error e => Except.error e
    | Except.ok _ =>
      if ¬ env.sdp_ok i then Except.error AVErr.engineFailure
      else if env.add_track_id i < 0 then Except.error AVErr.einval
      else Except.ok ()

/-- One iteration of the stream loop of `whip_init` (lines 77-153): video
streams go straight to track setup; audio streams are rejected with
AVERROR(EINVAL) unless the sample rate is 48000 and the layout is stereo;
any other codec type is skipped (`continue`). -/
def whip_init_stream (env : WhipStreamEnv) (i : Nat) (p : AVCodecParameters) :
    Except AVErr Unit :=
  match p.codec_type with
  | AVMediaType.other => Except.ok ()
  | AVMediaType.video => whip_setup_track env i p
  | AVMediaType.audio =>
    if p.sample_rate ≠ 48000 then Except.error AVErr.einval
    else if p.ch_layout ≠ AVChLayout.stereo then Except.error AVErr.einval
    else whip_setup_track env i p

/-- The stream-list loop of `whip_init` over the caller stream list, starting at stream
index `i`; the first failing stream aborts the whole open. -/
def whip_init_streams (env : WhipStreamEnv) : Nat → List AVCodecParameters → Except AVErr Unit
  | _, [] => Except.ok ()
  | i, p :: rest =>
    match whip_init_stream env i p with
    | Except.error e => Except.error e
    | Except.ok _ => whip_init_streams env (i + 1) rest

/-- An audio stream `whip_init` must reject: wrong sample rate or wrong
channel layout. -/
def bad_audio (p : AVCodecParameters) : Prop :=
  p.codec_type = AVMediaType.audio ∧
    (p.sample_rate ≠ 48000 ∨ p.ch_layout ≠ AVChLayout.stereo)

/-! ### Transport binding receive (webrtc_read, webrtc.c lines 262-280) -/

/-- Engine receive result codes (`rtcReceiveMessage`): RTC_ERR_SUCCESS,
RTC_ERR_NOT_AVAIL, RTC_ERR_TOO_SMALL, or some other failure code. -/
inductive RtcRecvCode
  | success
  | notAvail
  | tooSmall
  | otherFailure (code : Int)
deriving DecidableEq

/-- Engine-side state of one track: the queue of pending incoming
messages, and an optional fault making every receive fail. -/
structure EngineTrackState where
  queue : List (List Nat)
  fault : Option Int
deriving DecidableEq

/-- Modelled from the spec: the engine non-blocking receive
(`rtcReceiveMessage`, libdatachannel, external).  With no message pending
it reports not-available; when the supplied buffer is smaller than the
next message it reports too-small and "the message is not consumed and
must be re-read with a larger buffer"; otherwise it delivers the message,
writes its length into the size argument, and consumes it. -/
def rtcReceiveMessage (st : EngineTrackState) (size : Nat) :
    RtcRecvCode × Nat × EngineTrackState :=
  match st.fault with
  | some c => (RtcRecvCode.otherFailure c, size, st)
  | none =>
    match st.queue with
    | [] => (RtcRecvCode.notAvail, size, st)
    | msg :: rest =>
      if size < msg.length then (RtcRecvCode.tooSmall, size, st)
      else (RtcRecvCode.success, msg.length, { st with queue := rest })

/-- Function `webrtc_read` (webrtc.c lines 262-280): call `rtcReceiveMessage`, map
RTC_ERR_NOT_AVAIL to AVERROR(EAGAIN), RTC_ERR_TOO_SMALL to
AVERROR_BUFFER_TOO_SMALL, any other non-success code to AVERROR_EOF, and
return the received byte count on success. -/
def webrtc_read (st : EngineTrackState) (size : Nat) :
    Except AVErr Nat × EngineTrackState :=
  let r := rtcReceiveMessage st size
  match r.1 with
  | RtcRecvCode.notAvail => (Except.error AVErr.eagain, r.2.2)
  | RtcRecvCode.tooSmall => (Except.error AVErr.bufTooSmall, r.2.2)
  | RtcRecvCode.otherFailure _ => (Except.error AVErr.endOfFile, r.2.2)
  | RtcRecvCode.success => (Except.ok r.2.1, r.2.2)

/-! ## Theorems -/

/-- C1: a packet write in a non-Connected mirrored state fails with the
not-connected error (AVERROR(EINVAL)) and forwards nothing; in the
Connected state it forwards the packet to the RTP writer of the track
named by the stream index of the packet. -/
theorem whip_write_packet_guard (ctx : WebRTCContext) (pkt : AVPacket) :
    (ctx.state ≠ RtcState.connected →
      (whip_write_packet ctx pkt).result = Except.error AVErr.einval) ∧
    (ctx.state = RtcState.connected →
      (whip_write_packet ctx pkt).result =
        Except.ok (((ctx.tracks.getD []).getD pkt.stream_index default).rtp_ctx)) := by
  constructor
  · intro h
    simp [whip_write_packet, h]
  · intro h
    simp [whip_write_packet, h]

theorem whip_write_packet_guard_witness :
    (whip_write_packet
        ⟨1, RtcState.failed, some [⟨5, some 7, some 8⟩], 1, none, none, 10000000, 1000000⟩
        ⟨0, 42⟩).result = Except.error AVErr.einval ∧
    (whip_write_packet
        ⟨1, RtcState.connected, some [⟨5, some 7, some 8⟩], 1, none, none, 10000000, 1000000⟩
        ⟨0, 42⟩).result = Except.ok (some 7) :=
  ⟨(whip_write_packet_guard
      ⟨1, RtcState.failed, some [⟨5, some 7, some 8⟩], 1, none, none, 10000000, 1000000⟩
      ⟨0, 42⟩).1 (by decide),
   (whip_write_packet_guard
      ⟨1, RtcState.connected, some [⟨5, some 7, some 8⟩], 1, none, none, 10000000, 1000000⟩
      ⟨0, 42⟩).2 rfl⟩

/-- C10: every `whip_write_packet` call, including one rejected by the
connected-state guard, overwrites the `stream_index` field of the caller packet with 0, and
the track array is read at the original `stream_index` (before the guard
runs), so a rejected write still mutates the packet of the caller. -/
theorem whip_write_packet_frame (ctx : WebRTCContext) (pkt : AVPacket) :
    (whip_write_packet ctx pkt).pkt_after = { pkt with stream_index := 0 } ∧
    (whip_write_packet ctx pkt).accessed_track = pkt.stream_index ∧
    (ctx.state ≠ RtcState.connected →
      (whip_write_packet ctx pkt).result = Except.error AVErr.einval ∧
      (whip_write_packet ctx pkt).pkt_after.stream_index = 0) := by
  refine ⟨?_, ?_, ?_⟩
  · by_cases h : ctx.state = RtcState.connected <;> simp [whip_write_packet, h]
  · by_cases h : ctx.state = RtcState.connected <;> simp [whip_write_packet, h]
  · intro h
    simp [whip_write_packet, h]

theorem whip_write_packet_frame_witness :
    (whip_write_packet
        ⟨1, RtcState.connecting, some [⟨5, some 7, some 8⟩, ⟨6, some 9, some 10⟩], 2,
          none, none, 10000000, 1000000⟩
        ⟨1, 99⟩).pkt_after = ⟨0, 99⟩ ∧
    (whip_write_packet
        ⟨1, RtcState.connecting, some [⟨5, some 7, some 8⟩, ⟨6, some 9, some 10⟩], 2,
          none, none, 10000000, 1000000⟩
        ⟨1, 99⟩).accessed_track = 1 ∧
    ((whip_write_packet
        ⟨1, RtcState.connecting, some [⟨5, some 7, some 8⟩, ⟨6, some 9, some 10⟩], 2,
          none, none, 10000000, 1000000⟩
        ⟨1, 99⟩).result = Except.error AVErr.einval ∧
      (whip_write_packet
        ⟨1, RtcState.connecting, some [⟨5, some 7, some 8⟩, ⟨6, some 9, some 10⟩], 2,
          none, none, 10000000, 1000000⟩
        ⟨1, 99⟩).pkt_after.stream_index = 0) := by
  have h := whip_write_packet_frame
      ⟨1, RtcState.connecting, some [⟨5, some 7, some 8⟩, ⟨6, some 9, some 10⟩], 2,
        none, none, 10000000, 1000000⟩
      ⟨1, 99⟩
  exact ⟨h.1, h.2.1, h.2.2 (by decide)⟩

/-- While no exit condition has fired, the connect-wait loop just keeps
stepping: skipping `n` exit-free iterations costs `n` fuel. -/
theorem connect_wait_from_skip (stateAt : Nat → RtcState) (timeAt : Nat → Int)
    (deadline : Int) (n : Nat) :
    ∀ k fuel : Nat,
      (∀ m, k ≤ m → m < k + n → ¬ wait_exit stateAt timeAt deadline m) →
      n ≤ fuel →
      connect_wait_from stateAt timeAt deadline fuel k =
        connect_wait_from stateAt timeAt deadline (fuel - n) (k + n) := by
  induction n with
  | zero => intro k fuel _ _; simp
  | succ n ih =>
    intro k fuel hpre hfuel
    obtain ⟨f, rfl⟩ : ∃ f, fuel = f + 1 := ⟨fuel - 1, by omega⟩
    have hk : ¬ wait_exit stateAt timeAt deadline k := hpre k le_rfl (by omega)
    have h1 : ¬ stateAt k = RtcState.connected := fun h => hk (Or.inl h)
    have h2 : ¬ (stateAt k = RtcState.failed ∨ stateAt k = RtcState.closed ∨
        deadline < timeAt k) := fun h => hk (Or.inr h)
    have hstep : connect_wait_from stateAt timeAt deadline (f + 1) k =
        connect_wait_from stateAt timeAt deadline f (k + 1) := by
      simp [connect_wait_from, h1, h2]
    rw [hstep, ih (k + 1) f (fun m hm1 hm2 => hpre m (by omega) (by omega)) (by omega)]
    have e1 : f - n = f + 1 - (n + 1) := by omega
    have e2 : k + 1 + n = k + (n + 1) := by omega
    rw [e1, e2]

/-- C2: if no exit condition fired during the first `n` iterations of the
connect wait, then at iteration `n` the wait returns success as soon as
the mirrored state is Connected; it fails with the
transport-establishment error (AVERROR_EXTERNAL) the moment it observes
Failed or Closed — with no constraint on the clock, i.e. without waiting
on to the timeout deadline — and it fails the same way when, not yet
connected, the wall clock has passed `t0 + connection_timeout`. -/
theorem connect_wait_outcome (stateAt : Nat → RtcState) (timeAt : Nat → Int)
    (t0 connTimeout : Int) (n fuel : Nat)
    (hpre : ∀ m, m < n → ¬ wait_exit stateAt timeAt (t0 + connTimeout) m)
    (hfuel : n < fuel) :
    (stateAt n = RtcState.connected →
      connect_wait stateAt timeAt t0 connTimeout fuel = some (Except.ok ())) ∧
    ((stateAt n = RtcState.failed ∨ stateAt n = RtcState.closed) →
      connect_wait stateAt timeAt t0 connTimeout fuel =
        some (Except.error AVErr.engineFailure)) ∧
    (¬ stateAt n = RtcState.connected → t0 + connTimeout < timeAt n →
      connect_wait stateAt timeAt t0 connTimeout fuel =
        some (Except.error AVErr.engineFailure)) := by
  have hskip := connect_wait_from_skip stateAt timeAt (t0 + connTimeout) n 0 fuel
    (fun m hm1 hm2 => hpre m (by omega)) (by omega)
  simp only [Nat.zero_add] at hskip
  obtain ⟨g, hg⟩ : ∃ g, fuel - n = g + 1 := ⟨fuel - n - 1, by omega⟩
  rw [hg] at hskip
  refine ⟨?_, ?_, ?_⟩
  · intro h
    rw [connect_wait, hskip]
    simp [connect_wait_from, h]
  · intro h
    have hnc : ¬ stateAt n = RtcState.connected := by
      rcases h with h | h <;> rw [h] <;> intro hc <;> exact RtcState.noConfusion hc
    rw [connect_wait, hskip]
    rcases h with h | h <;> simp [connect_wait_from, hnc, h]
  · intro hnc ht
    rw [connect_wait, hskip]
    have : stateAt n = RtcState.failed ∨ stateAt n = RtcState.closed ∨
        t0 + connTimeout < timeAt n := Or.inr (Or.inr ht)
    simp [connect_wait_from, hnc, this]

/-- The scenario trace from the spec for the connect wait: the engine notifies
New, then Connecting, then Failed. -/
def c2_states : Nat → RtcState := fun n =>
  if n = 0 then RtcState.rtcNew
  else if n = 1 then RtcState.connecting
  else RtcState.failed

theorem connect_wait_outcome_witness :
    (∀ m, m < 2 → ¬ wait_exit c2_states (fun n => (n : Int)) ((0 : Int) + 10000000) m) ∧
    2 < 10 ∧
    connect_wait c2_states (fun n => (n : Int)) 0 10000000 10 =
      some (Except.error AVErr.engineFailure) :=
  ⟨by decide, by omega,
   (connect_wait_outcome c2_states (fun n => (n : Int)) 0 10000000 2 10
      (by decide) (by omega)).2.1 (Or.inl rfl)⟩

/-- A fully-built egress session: two live tracks, a live peer connection,
and a stored resource location. -/
def c3_ctx : WebRTCContext :=
  ⟨1, RtcState.connected, some [⟨5, some 7, some 8⟩, ⟨6, some 9, some 10⟩], 2,
    some "https://sig.example/resource/42", none, 10000000, 1000000⟩

/-- C3 counterexample: when the remote deletion fails, `whep_read_close`
returns the deletion error to the caller, not success. -/
theorem whep_read_close_returns_delete_error :
    (whep_read_close (Except.error AVErr.engineFailure) c3_ctx).1 ≠ Except.ok () := by
  simp [whep_read_close, ff_webrtc_close_resource, c3_ctx]

/-- C3 amended: a failed remote deletion never blocks local resource
release — after close the tracks array, the peer connection and the
resource location are all released — but close propagates the deletion
error code to the caller instead of returning success. -/
theorem whep_read_close_cleanup_total (e : AVErr) (ctx : WebRTCContext)
    (loc : String) (hloc : ctx.resource_location = some loc) :
    (whep_read_close (Except.error e) ctx).1 = Except.error e ∧
    (whep_read_close (Except.error e) ctx).2.2.tracks = none ∧
    (whep_read_close (Except.error e) ctx).2.2.peer_connection = 0 ∧
    (whep_read_close (Except.error e) ctx).2.2.resource_location = none := by
  simp [whep_read_close, ff_webrtc_close_resource, hloc, ff_webrtc_deinit]

theorem whep_read_close_cleanup_total_witness :
    (whep_read_close (Except.error AVErr.engineFailure) c3_ctx).1 =
      Except.error AVErr.engineFailure ∧
    (whep_read_close (Except.error AVErr.engineFailure) c3_ctx).2.2.tracks = none ∧
    (whep_read_close (Except.error AVErr.engineFailure) c3_ctx).2.2.peer_connection = 0 ∧
    (whep_read_close (Except.error AVErr.engineFailure) c3_ctx).2.2.resource_location = none :=
  whep_read_close_cleanup_total AVErr.engineFailure c3_ctx
    "https://sig.example/resource/42" rfl

/-- C8: delete-resource is a no-op returning success when
`resource_location` is unset; `resource_location` is cleared after the
delete attempt whatever its outcome; and running the teardown a second
time frees nothing and leaves the session state unchanged. -/
theorem close_idempotent (d : Except AVErr Unit) (ctx : WebRTCContext) :
    (ctx.resource_location = none →
      ff_webrtc_close_resource d ctx = (Except.ok (), [], ctx)) ∧
    (ff_webrtc_close_resource d ctx).2.2.resource_location = none ∧
    (ff_webrtc_deinit (ff_webrtc_deinit ctx).2).1 = [] ∧
    (ff_webrtc_deinit (ff_webrtc_deinit ctx).2).2 = (ff_webrtc_deinit ctx).2 := by
  refine ⟨?_, ?_, ?_, ?_⟩
  · intro h
    simp [ff_webrtc_close_resource, h]
  · cases hl : ctx.resource_location <;> simp [ff_webrtc_close_resource, hl]
  · simp [ff_webrtc_deinit]
  · simp [ff_webrtc_deinit]

/-- A torn-down ingest session: no stored resource location. -/
def c8_ctx : WebRTCContext :=
  ⟨1, RtcState.closed, some [⟨5, some 7, some 8⟩], 1, none, none, 10000000, 1000000⟩

theorem close_idempotent_witness :
    ff_webrtc_close_resource (Except.error AVErr.engineFailure) c8_ctx =
      (Except.ok (), [], c8_ctx) ∧
    (ff_webrtc_close_resource (Except.error AVErr.engineFailure) c8_ctx).2.2.resource_location
      = none ∧
    (ff_webrtc_deinit (ff_webrtc_deinit c8_ctx).2).1 = [] ∧
    (ff_webrtc_deinit (ff_webrtc_deinit c8_ctx).2).2 = (ff_webrtc_deinit c8_ctx).2 :=
  ⟨(close_idempotent (Except.error AVErr.engineFailure) c8_ctx).1 rfl,
   (close_idempotent (Except.error AVErr.engineFailure) c8_ctx).2.1,
   (close_idempotent (Except.error AVErr.engineFailure) c8_ctx).2.2.1,
   (close_idempotent (Except.error AVErr.engineFailure) c8_ctx).2.2.2⟩

/-- A track with all three per-track resources live releases them in
source order: codec session, transport binding, track handle. -/
theorem track_deinit_events_full (i : Nat) (t : WebRTCTrack)
    (h1 : t.rtp_ctx.isSome = true) (h2 : t.rtp_url_context.isSome = true)
    (h3 : t.track_id ≠ 0) :
    track_deinit_events i t = [Ev.freeRtpCtx i, Ev.freeUrlCtx i, Ev.deleteTrack i] := by
  simp [track_deinit_events, h1, h2, h3]

/-- The release events of track `i` appear contiguously inside the
track-loop trace. -/
theorem deinit_tracks_infix :
    ∀ (ts : List WebRTCTrack) (k i : Nat) (h : i < ts.length),
      List.IsInfix (track_deinit_events (k + i) (ts.get ⟨i, h⟩)) (deinit_tracks k ts) := by
  intro ts
  induction ts with
  | nil => intro k i h; exact absurd h (by simp)
  | cons t rest ih =>
    intro k i h
    cases i with
    | zero =>
      refine ⟨[], deinit_tracks (k + 1) rest, ?_⟩
      simp [deinit_tracks]
    | succ i =>
      have hr : i < rest.length := by simpa using h
      obtain ⟨s, u, hsu⟩ := ih (k + 1) i hr
      refine ⟨track_deinit_events k t ++ s, u, ?_⟩
      have ek : k + 1 + i = k + (i + 1) := by omega
      rw [deinit_tracks, ← hsu, ← ek]
      simp [List.append_assoc, List.get]

/-- C7: on every teardown, the resources of each live track are released in
the order codec session, transport binding, track handle, and every
per-track release precedes the peer-connection deletion; and on explicit
close (egress `whep_read_close`, ingest trailer-then-deinit) the remote
resource-deletion attempt comes before every local engine-teardown
event. -/
theorem teardown_order (ctx : WebRTCContext) (d : Except AVErr Unit)
    (ts : List WebRTCTrack) (i : Nat) (loc : String)
    (htr : ctx.tracks = some ts) (hi : i < ctx.nb_tracks) (hil : i < ts.length)
    (h1 : (ts.get ⟨i, hil⟩).rtp_ctx.isSome = true)
    (h2 : (ts.get ⟨i, hil⟩).rtp_url_context.isSome = true)
    (h3 : (ts.get ⟨i, hil⟩).track_id ≠ 0)
    (hpc : ctx.peer_connection ≠ 0)
    (hloc : ctx.resource_location = some loc) :
    List.Sublist
      [Ev.freeRtpCtx i, Ev.freeUrlCtx i, Ev.deleteTrack i, Ev.deletePeerConnection]
      (ff_webrtc_deinit ctx).1 ∧
    (whep_read_close d ctx).2.1 =
      Ev.httpDelete loc ctx.bearer_token ::
        (ff_webrtc_deinit { ctx with resource_location := none }).1 ∧
    (whip_close d ctx).2.1 =
      Ev.httpDelete loc ctx.bearer_token ::
        (ff_webrtc_deinit { ctx with resource_location := none }).1 := by
  refine ⟨?_, ?_, ?_⟩
  · have hlen : i < (ts.take ctx.nb_tracks).length := by
      simp [List.length_take]
      omega
    have hget : (ts.take ctx.nb_tracks).get ⟨i, hlen⟩ = ts.get ⟨i, hil⟩ := by
      simp [List.getElem_take]
    have hinf := deinit_tracks_infix (ts.take ctx.nb_tracks) 0 i hlen
    rw [hget, Nat.zero_add, track_deinit_events_full i _ h1 h2 h3] at hinf
    have s1 : List.Sublist [Ev.freeRtpCtx i, Ev.freeUrlCtx i, Ev.deleteTrack i]
        (deinit_tracks 0 (ts.take ctx.nb_tracks)) := hinf.sublist
    have s2 : List.Sublist [Ev.deletePeerConnection]
        ([Ev.freeTracksArray] ++ ([Ev.deletePeerConnection] ++ [Ev.freeResourceLocation])) :=
      (List.sublist_append_left [Ev.deletePeerConnection] [Ev.freeResourceLocation]).trans
        (List.sublist_append_right [Ev.freeTracksArray] _)
    have := s1.append s2
    simpa [ff_webrtc_deinit, htr, hpc, hloc, List.append_assoc] using this
  · simp [whep_read_close, ff_webrtc_close_resource, hloc]
  · simp [whip_close, whip_write_trailer, ff_webrtc_close_resource, hloc]

/-- A fully-built two-track session for the teardown-order witness. -/
def c7_ctx : WebRTCContext :=
  ⟨3, RtcState.connected, some [⟨11, some 21, some 31⟩, ⟨12, some 22, some 32⟩], 2,
    some "https://sig.example/resource/9", some "tok", 10000000, 1000000⟩

theorem teardown_order_witness :
    List.Sublist
      [Ev.freeRtpCtx 0, Ev.freeUrlCtx 0, Ev.deleteTrack 0, Ev.deletePeerConnection]
      (ff_webrtc_deinit c7_ctx).1 ∧
    (whep_read_close (Except.ok ()) c7_ctx).2.1 =
      Ev.httpDelete "https://sig.example/resource/9" (some "tok") ::
        (ff_webrtc_deinit { c7_ctx with resource_location := none }).1 ∧
    (whip_close (Except.ok ()) c7_ctx).2.1 =
      Ev.httpDelete "https://sig.example/resource/9" (some "tok") ::
        (ff_webrtc_deinit { c7_ctx with resource_location := none }).1 := by
  have h := teardown_order c7_ctx (Except.ok ())
    [⟨11, some 21, some 31⟩, ⟨12, some 22, some 32⟩] 0 "https://sig.example/resource/9"
    rfl (by decide) (by decide) rfl rfl (by decide) (by decide) rfl
  exact h

/-- The signaling environment of the oversized-answer scenario: every
external step succeeds and the POST reply body is one byte longer than
the fixed description buffer. -/
def c4_env : SignalHttpEnv :=
  { set_local_ok := true
    local_desc := some "v=0 offer"
    connect_ok := true
    response_body := List.replicate (SDP_MAX_SIZE + 1) 0
    set_remote_ok := fun _ => true
    new_location := some "https://sig.example/resource/7"
    close_ok := true }

/-- A fresh session about to run the create-resource exchange. -/
def c4_ctx : WebRTCContext :=
  ⟨1, RtcState.connecting, some [⟨11, some 21, some 31⟩], 1, none, none, 10000000, 1000000⟩

/-- C4 (divergence from the claim): with a response body one byte larger
than the fixed SDP buffer and every external step succeeding,
`ff_webrtc_create_resource` returns success and applies the silently
truncated 16384-byte prefix — not the full body — as the remote
description, instead of failing with a signaling error. -/
theorem create_resource_truncates_oversized :
    (ff_webrtc_create_resource c4_env c4_ctx).1 = Except.ok () ∧
    (ff_webrtc_create_resource c4_env c4_ctx).2.1 =
      some (List.replicate SDP_MAX_SIZE 0) ∧
    (ff_webrtc_create_resource c4_env c4_ctx).2.1 ≠ some c4_env.response_body := by
  have hmin : min (SDP_MAX_SIZE + 1) SDP_MAX_SIZE = SDP_MAX_SIZE := by omega
  have hmin2 : min SDP_MAX_SIZE (SDP_MAX_SIZE + 1) = SDP_MAX_SIZE := by omega
  have hread : ffurl_read_complete (List.replicate (SDP_MAX_SIZE + 1) 0) SDP_MAX_SIZE =
      (Int.ofNat SDP_MAX_SIZE, List.replicate SDP_MAX_SIZE 0) := by
    rw [ffurl_read_complete, List.length_replicate, List.take_replicate, hmin, hmin2]
  have hmain : ff_webrtc_create_resource c4_env c4_ctx =
      (Except.ok (), some (List.replicate SDP_MAX_SIZE 0),
        { c4_ctx with resource_location := some "https://sig.example/resource/7" }) := by
    rw [ff_webrtc_create_resource]
    simp only [c4_env, hread]
    norm_num
  refine ⟨by rw [hmain], by rw [hmain], ?_⟩
  rw [hmain]
  intro h
  have hlen := congrArg List.length (Option.some.inj h)
  simp only [c4_env, List.length_replicate] at hlen
  omega

/-- C5: whenever the egress open succeeds, the session exposes exactly two
public streams, video at index 0 and audio at index 1, the two tracks
handed to the engine are the fixed receive-only H.264/96 and Opus/97
configurations, and none of this depends on the remote answer body. -/
theorem whep_fixed_two_streams (env : WhepEnv)
    (h1 : env.add_track_video ≠ 0) (h2 : env.add_track_audio ≠ 0)
    (h3 : env.create_res_ok = true) (h4 : env.wait_ok = true)
    (h5 : env.open_tracks_ok = true) :
    whep_read_header env =
      Except.ok ([whep_video_track_init env.msid env.ssrc_video,
                  whep_audio_track_init env.msid env.ssrc_audio],
        [AVMediaType.video, AVMediaType.audio]) ∧
    (whep_video_track_init env.msid env.ssrc_video).direction = RtcDirection.recvonly ∧
    (whep_video_track_init env.msid env.ssrc_video).codec = RtcCodec.h264 ∧
    (whep_video_track_init env.msid env.ssrc_video).payloadType = 96 ∧
    (whep_audio_track_init env.msid env.ssrc_audio).direction = RtcDirection.recvonly ∧
    (whep_audio_track_init env.msid env.ssrc_audio).codec = RtcCodec.opus ∧
    (whep_audio_track_init env.msid env.ssrc_audio).payloadType = 97 ∧
    ∀ body : List Nat,
      whep_read_header { env with answer_body := body } = whep_read_header env := by
  refine ⟨?_, rfl, rfl, rfl, rfl, rfl, rfl, fun body => rfl⟩
  simp [whep_read_header, h1, h2, h3, h4, h5, whep_track_stream_kind,
    whep_video_track_init, whep_audio_track_init, rtc_codec_kind]

/-- A successful egress environment for the witness. -/
def c5_env : WhepEnv := ⟨"ms", 111, 222, 4, 5, [9, 9], true, true, true⟩

theorem whep_fixed_two_streams_witness :
    whep_read_header c5_env =
      Except.ok ([whep_video_track_init "ms" 111, whep_audio_track_init "ms" 222],
        [AVMediaType.video, AVMediaType.audio]) ∧
    (whep_video_track_init "ms" 111).direction = RtcDirection.recvonly ∧
    (whep_video_track_init "ms" 111).codec = RtcCodec.h264 ∧
    (whep_video_track_init "ms" 111).payloadType = 96 ∧
    (whep_audio_track_init "ms" 222).direction = RtcDirection.recvonly ∧
    (whep_audio_track_init "ms" 222).codec = RtcCodec.opus ∧
    (whep_audio_track_init "ms" 222).payloadType = 97 ∧
    ∀ body : List Nat,
      whep_read_header { c5_env with answer_body := body } = whep_read_header c5_env :=
  whep_fixed_two_streams c5_env (by decide) (by decide) rfl rfl rfl

/-- The conversion table only ever fails with AVERROR(EINVAL). -/
theorem convert_codec_error_is_einval (id : AVCodecID) (e : AVErr)
    (h : ff_webrtc_convert_codec id = Except.error e) : e = AVErr.einval := by
  cases id <;> simp_all [ff_webrtc_convert_codec]

/-- With all external steps succeeding, track setup succeeds for every
codec the conversion table supports. -/
theorem whip_setup_track_ok (env : WhipStreamEnv) (i : Nat) (p : AVCodecParameters)
    (henv : whip_env_ok env) (c : RtcCodec)
    (hc : ff_webrtc_convert_codec p.codec_id = Except.ok c) :
    whip_setup_track env i p = Except.ok () := by
  obtain ⟨hu, hr, hs, ha⟩ := henv i
  simp [whip_setup_track, hu, hr, hs, hc, not_lt.mpr ha]

/-- With all external steps succeeding, track setup either succeeds or
fails with AVERROR(EINVAL) (unsupported codec). -/
theorem whip_setup_track_ok_or_einval (env : WhipStreamEnv) (i : Nat)
    (p : AVCodecParameters) (henv : whip_env_ok env) :
    whip_setup_track env i p = Except.ok () ∨
      whip_setup_track env i p = Except.error AVErr.einval := by
  cases hc : ff_webrtc_convert_codec p.codec_id with
  | ok c => exact Or.inl (whip_setup_track_ok env i p henv c hc)
  | error e =>
    right
    obtain ⟨hu, hr, hs, _⟩ := henv i
    have he := convert_codec_error_is_einval p.codec_id e hc
    simp [whip_setup_track, hu, hr, hs, hc, he]

/-- An audio stream with a wrong sample rate or layout is rejected with
AVERROR(EINVAL) before any track setup. -/
theorem whip_init_stream_bad_audio (env : WhipStreamEnv) (i : Nat)
    (p : AVCodecParameters) (hb : bad_audio p) :
    whip_init_stream env i p = Except.error AVErr.einval := by
  obtain ⟨hty, hbad⟩ := hb
  by_cases hr : p.sample_rate = 48000
  · rcases hbad with h | h
    · exact absurd hr h
    · simp [whip_init_stream, hty, hr, h]
  · simp [whip_init_stream, hty, hr]

/-- With all external steps succeeding, each loop iteration either
accepts the stream or rejects it with AVERROR(EINVAL). -/
theorem whip_init_stream_ok_or_einval (env : WhipStreamEnv) (i : Nat)
    (p : AVCodecParameters) (henv : whip_env_ok env) :
    whip_init_stream env i p = Except.ok () ∨
      whip_init_stream env i p = Except.error AVErr.einval := by
  cases hty : p.codec_type with
  | other => left; simp [whip_init_stream, hty]
  | video =>
    have := whip_setup_track_ok_or_einval env i p henv
    simpa [whip_init_stream, hty] using this
  | audio =>
    by_cases hr : p.sample_rate = 48000
    · by_cases hl : p.ch_layout = AVChLayout.stereo
      · have := whip_setup_track_ok_or_einval env i p henv
        simpa [whip_init_stream, hty, hr, hl] using this
      · right; simp [whip_init_stream, hty, hr, hl]
    · right; simp [whip_init_stream, hty, hr]

/-- With all external steps succeeding, the whole stream loop either
succeeds or fails with AVERROR(EINVAL). -/
theorem whip_init_streams_ok_or_einval (env : WhipStreamEnv)
    (henv : whip_env_ok env) :
    ∀ (ss : List AVCodecParameters) (i : Nat),
      whip_init_streams env i ss = Except.ok () ∨
        whip_init_streams env i ss = Except.error AVErr.einval := by
  intro ss
  induction ss with
  | nil => intro i; left; rfl
  | cons q rest ih =>
    intro i
    rcases whip_init_stream_ok_or_einval env i q henv with h | h
    · simpa [whip_init_streams, h] using ih (i + 1)
    · right; simp [whip_init_streams, h]

/-- A stream list containing a rejected audio stream never opens. -/
theorem whip_init_streams_bad (env : WhipStreamEnv) :
    ∀ (ss : List AVCodecParameters) (i : Nat) (p : AVCodecParameters),
      bad_audio p → p ∈ ss → whip_init_streams env i ss ≠ Except.ok () := by
  intro ss
  induction ss with
  | nil => intro i p _ hm; simp at hm
  | cons q rest ih =>
    intro i p hb hm
    rcases List.mem_cons.mp hm with rfl | hm
    · have h := whip_init_stream_bad_audio env i p hb
      simp [whip_init_streams, h]
    · cases hq : whip_init_stream env i q with
      | error e => simp [whip_init_streams, hq]
      | ok u =>
        simp only [whip_init_streams, hq]
        exact ih (i + 1) p hb hm

/-- C6: with all external per-stream steps succeeding, an ingest open
over a stream list containing an audio stream whose sample rate is not
48000 Hz or whose layout is not stereo fails with AVERROR(EINVAL), while
a video stream is accepted for every codec the conversion table
supports. -/
theorem whip_init_validation (env : WhipStreamEnv) (ss : List AVCodecParameters)
    (henv : whip_env_ok env) :
    ((∃ p, p ∈ ss ∧ bad_audio p) →
      whip_init_streams env 0 ss = Except.error AVErr.einval) ∧
    (∀ (i : Nat) (p : AVCodecParameters) (c : RtcCodec),
      p.codec_type = AVMediaType.video →
      ff_webrtc_convert_codec p.codec_id = Except.ok c →
      whip_init_stream env i p = Except.ok ()) := by
  constructor
  · rintro ⟨p, hm, hb⟩
    rcases whip_init_streams_ok_or_einval env henv ss 0 with h | h
    · exact absurd h (whip_init_streams_bad env ss 0 p hb hm)
    · exact h
  · intro i p c hty hc
    have h := whip_setup_track_ok env i p henv c hc
    simpa [whip_init_stream, hty] using h

/-- All external per-stream steps succeed. -/
def c6_env : WhipStreamEnv := ⟨fun _ => true, fun _ => true, fun _ => true, fun _ => 1⟩

/-- A video stream with a supported codec. -/
def c6_video : AVCodecParameters :=
  ⟨AVMediaType.video, AVCodecID.h264, 0, AVChLayout.otherLayout⟩

/-- A 44.1 kHz stereo audio stream — wrong sample rate. -/
def c6_bad_audio : AVCodecParameters :=
  ⟨AVMediaType.audio, AVCodecID.opus, 44100, AVChLayout.stereo⟩

theorem whip_init_validation_witness :
    whip_init_streams c6_env 0 [c6_video, c6_bad_audio] = Except.error AVErr.einval ∧
    whip_init_stream c6_env 0 c6_video = Except.ok () := by
  have henv : whip_env_ok c6_env := fun i => ⟨rfl, rfl, rfl, by norm_num [c6_env]⟩
  exact ⟨(whip_init_validation c6_env [c6_video, c6_bad_audio] henv).1
      ⟨c6_bad_audio, by simp, rfl, Or.inl (by decide)⟩,
    (whip_init_validation c6_env [c6_video, c6_bad_audio] henv).2 0 c6_video
      RtcCodec.h264 rfl rfl⟩

/-- C9: the transport-binding receive maps the engine not-available
result to AVERROR(EAGAIN), its too-small result to
AVERROR_BUFFER_TOO_SMALL with the pending message left unconsumed, any
other engine failure to AVERROR_EOF, and on success returns the number
of bytes read, consuming the message. -/
theorem webrtc_read_mapping (st : EngineTrackState) (size : Nat) :
    (st.fault = none → st.queue = [] →
      webrtc_read st size = (Except.error AVErr.eagain, st)) ∧
    (∀ msg rest, st.fault = none → st.queue = msg :: rest → size < msg.length →
      webrtc_read st size = (Except.error AVErr.bufTooSmall, st)) ∧
    (∀ c, st.fault = some c →
      webrtc_read st size = (Except.error AVErr.endOfFile, st)) ∧
    (∀ msg rest, st.fault = none → st.queue = msg :: rest → msg.length ≤ size →
      webrtc_read st size = (Except.ok msg.length, { st with queue := rest })) := by
  refine ⟨?_, ?_, ?_, ?_⟩
  · intro hf hq
    simp [webrtc_read, rtcReceiveMessage, hf, hq]
  · intro msg rest hf hq hs
    simp [webrtc_read, rtcReceiveMessage, hf, hq, hs]
  · intro c hf
    simp [webrtc_read, rtcReceiveMessage, hf]
  · intro msg rest hf hq hs
    simp [webrtc_read, rtcReceiveMessage, hf, hq, not_lt.mpr hs]

theorem webrtc_read_mapping_witness :
    webrtc_read ⟨[], none⟩ 100 = (Except.error AVErr.eagain, ⟨[], none⟩) ∧
    webrtc_read ⟨[[1, 2, 3]], none⟩ 2 =
      (Except.error AVErr.bufTooSmall, ⟨[[1, 2, 3]], none⟩) ∧
    webrtc_read ⟨[], some 5⟩ 100 = (Except.error AVErr.endOfFile, ⟨[], some 5⟩) ∧
    webrtc_read ⟨[[1, 2, 3]], none⟩ 3 = (Except.ok 3, ⟨[], none⟩) :=
  ⟨(webrtc_read_mapping ⟨[], none⟩ 100).1 rfl rfl,
   (webrtc_read_mapping ⟨[[1, 2, 3]], none⟩ 2).2.1 [1, 2, 3] [] rfl rfl (by decide),
   (webrtc_read_mapping ⟨[], some 5⟩ 100).2.2.1 5 rfl,
   (webrtc_read_mapping ⟨[[1, 2, 3]], none⟩ 3).2.2.2 [1, 2, 3] [] rfl rfl (by decide)⟩

end WebRTCSpec
